import Mathlib

/-!
Shallow embedding of the ListingIQ deal-evaluation and reverse offer-pricing
engine (src/listingiq/analysis/{brrr,cashflow,flip,engine,offer}.py and
src/listingiq/config.py, src/listingiq/models.py), together with theorems
settling the specification claims about it.

Currency and rate values are modelled as exact rationals.  Python float
values that can be the IEEE positive infinity produced by the analyzers
(cash-on-cash return, DSCR, GRM) are modelled by the type PyFloat below.
Python exceptions that the embedded fragment can raise (TypeError from
keyword-argument binding, ValueError from an unknown strategy name) are
modelled with Except PyErr.  String formatting of the human-readable
summary field is presentation-only and is not embedded.
-/

namespace ListingIQ

/-- Decidable equality for the rationals routed through the Boolean
comparison functions of the Rat implementation, which evaluate fast on
large concrete values; used by all derived decidable equalities below. -/
instance (priority := 10000) instDecidableEqRatFast : DecidableEq ℚ := fun a b =>
  if h : a ≤ b ∧ b ≤ a then isTrue (le_antisymm h.1 h.2)
  else isFalse fun he => h ⟨le_of_eq he, le_of_eq he.symm⟩

/-- Exceptions raised by the embedded fragment of the code. -/
inductive PyErr where
  | typeError
  | valueError
deriving DecidableEq

/-- A Python float that is either a finite rational value or positive
infinity, as produced by the analyzers (float("inf") sentinels). -/
inductive PyFloat where
  | fin (q : ℚ)
  | inf

/-- Decidable equality on PyFloat, routed through the fast rational
equality above. -/
instance instDecidableEqPyFloat : DecidableEq PyFloat := fun a b =>
  match a, b with
  | .fin x, .fin y =>
    if h : x = y then isTrue (by rw [h]) else isFalse fun he => h (by cases he; rfl)
  | .fin _, .inf => isFalse fun he => PyFloat.noConfusion he
  | .inf, .fin _ => isFalse fun he => PyFloat.noConfusion he
  | .inf, .inf => isTrue rfl

/-- Comparison a <= b on possibly-infinite floats (IEEE semantics for
positive infinity: inf <= inf is true, inf <= finite is false). -/
def pyLe : PyFloat → PyFloat → Bool
  | .fin a, .fin b => decide (a ≤ b)
  | .fin _, .inf => true
  | .inf, .fin _ => false
  | .inf, .inf => true

/-- Comparison a >= b on possibly-infinite floats. -/
def pyGe (a b : PyFloat) : Bool := pyLe b a

/-- Comparison a < b on possibly-infinite floats. -/
def pyLt (a b : PyFloat) : Bool := !pyLe b a

/-- Round a rational to the nearest integer, ties to even, mirroring the
behaviour of the Python builtin round on exactly-representable values. -/
def rhe (q : ℚ) : ℤ :=
  let f := ⌊q⌋
  let r := q - (f : ℚ)
  if r < 1/2 then f
  else if 1/2 < r then f + 1
  else if f % 2 = 0 then f else f + 1

/-- Embedding of the Python builtin round(x, n) on finite floats. -/
def pyRoundQ (n : ℕ) (q : ℚ) : ℚ := (rhe (q * 10 ^ n) : ℚ) / 10 ^ n

/-- Embedding of round(x, n): round survives infinity unchanged. -/
def pyRoundF (n : ℕ) : PyFloat → PyFloat
  | .fin q => .fin (pyRoundQ n q)
  | .inf => .inf

/-- Lookup d.get(k, dflt) on a metrics dict represented as an association
list, as used by OfferCalculator on deal.metrics. -/
def dictGet (d : List (String × PyFloat)) (k : String) (dflt : PyFloat) : PyFloat :=
  match d.find? (fun kv => kv.1 == k) with
  | some kv => kv.2
  | none => dflt

/-- Embedding of the Python expression s or dflt for an optional string
argument: None and the empty string are falsy and select the default. -/
def pyStrOr (s : Option String) (dflt : String) : String :=
  match s with
  | some v => if v = "" then dflt else v
  | none => dflt

/-- Truthiness of an optional float argument: None and 0.0 are falsy. -/
def pyTruthyOpt : Option ℚ → Bool
  | none => false
  | some a => a != 0

/-- Keyword-argument binding for a Python method call: every keyword passed
by the caller must name a parameter of the callee, otherwise the call
raises TypeError before the body runs. -/
def bindKwargs (params kwargs : List String) : Except PyErr Unit :=
  if kwargs.all params.contains then .ok () else .error .typeError

/-- Configuration block for the BRRR analyzer (src/listingiq/config.py,
class BRRRConfig), with the default field values of the source. -/
structure BRRRConfig where
  max_purchase_pct_of_arv : ℚ := 0.70
  rehab_cost_per_sqft : ℚ := 30.0
  refinance_ltv : ℚ := 0.75
  min_cash_on_cash_return : ℚ := 8.0
  monthly_holding_cost : ℚ := 1500.0
  rehab_months : ℚ := 4
deriving DecidableEq

/-- Configuration block for the cash-flow analyzer (src/listingiq/config.py,
class CashFlowConfig).  The loan term is an integer number of years. -/
structure CashFlowConfig where
  down_payment_pct : ℚ := 0.20
  interest_rate : ℚ := 0.07
  loan_term_years : ℤ := 30
  rent_estimate_pct : ℚ := 0.008
  vacancy_rate : ℚ := 0.05
  management_fee_pct : ℚ := 0.10
  maintenance_pct : ℚ := 0.01
  annual_insurance : ℚ := 1800.0
  min_monthly_cash_flow : ℚ := 200.0
  min_cap_rate : ℚ := 6.0
deriving DecidableEq

/-- Configuration block for the flip analyzer (src/listingiq/config.py,
class FlipConfig). -/
structure FlipConfig where
  max_purchase_pct_of_arv : ℚ := 0.65
  min_profit : ℚ := 30000.0
  selling_cost_pct : ℚ := 0.08
  monthly_holding_cost : ℚ := 2000.0
  project_months : ℚ := 6
deriving DecidableEq

/-- Configuration block for the offer calculator (src/listingiq/config.py,
class OfferConfig). -/
structure OfferConfig where
  cash_flow_target_monthly : ℚ := 200.0
  cash_flow_target_coc : ℚ := 8.0
  brrr_target_coc : ℚ := 10.0
  flip_target_profit : ℚ := 30000.0
  max_iterations : ℕ := 50
  price_tolerance : ℚ := 500.0
deriving DecidableEq

/-- Top-level analysis configuration (src/listingiq/config.py, class
AnalysisConfig). -/
structure AnalysisConfig where
  strategies : List String := ["brrr", "cash_flow", "flip"]
  brrr : BRRRConfig := {}
  cash_flow : CashFlowConfig := {}
  flip : FlipConfig := {}
  offer : OfferConfig := {}
deriving DecidableEq

/-- The analysis-relevant fields of a property listing
(src/listingiq/models.py, class Listing).  Presentation fields (url,
address components, images, timestamps and so on) play no role in any
analyzer formula and are not embedded. -/
structure Listing where
  source : String := "test"
  source_id : String := ""
  price : ℚ
  beds : ℤ := 0
  baths : ℚ := 0
  sqft : ℤ := 0
  year_built : ℤ := 0
  hoa_monthly : ℚ := 0.0
  tax_annual : ℚ := 0.0
deriving DecidableEq

/-- Investment strategy enum (src/listingiq/models.py, class DealStrategy). -/
inductive DealStrategy where
  | brrr
  | cash_flow
  | flip
deriving DecidableEq

/-- Metrics produced by the BRRR analyzer (src/listingiq/models.py, class
BRRRMetrics).  Only cash_on_cash_return can be infinite. -/
structure BRRRMetrics where
  purchase_price : ℚ
  estimated_arv : ℚ
  rehab_cost : ℚ
  total_investment : ℚ
  holding_costs : ℚ
  refinance_amount : ℚ
  cash_left_in_deal : ℚ
  monthly_rent_estimate : ℚ
  monthly_expenses : ℚ
  monthly_cash_flow : ℚ
  annual_cash_flow : ℚ
  cash_on_cash_return : PyFloat
  equity_captured : ℚ
deriving DecidableEq

/-- Metrics produced by the cash-flow analyzer (src/listingiq/models.py,
class CashFlowMetrics).  Only dscr and grm can be infinite. -/
structure CashFlowMetrics where
  purchase_price : ℚ
  down_payment : ℚ
  loan_amount : ℚ
  monthly_mortgage : ℚ
  monthly_rent_estimate : ℚ
  effective_rent : ℚ
  monthly_expenses : ℚ
  monthly_cash_flow : ℚ
  annual_cash_flow : ℚ
  cap_rate : ℚ
  cash_on_cash_return : ℚ
  noi : ℚ
  dscr : PyFloat
  grm : PyFloat
deriving DecidableEq

/-- Metrics produced by the flip analyzer (src/listingiq/models.py, class
FlipMetrics). -/
structure FlipMetrics where
  purchase_price : ℚ
  estimated_arv : ℚ
  rehab_cost : ℚ
  holding_costs : ℚ
  selling_costs : ℚ
  total_cost : ℚ
  estimated_profit : ℚ
  roi : ℚ
  profit_per_month : ℚ
deriving DecidableEq

/-- Result of one strategy analysis (src/listingiq/models.py, class
DealAnalysis).  The metrics field is the model_dump dict of the metrics
record; the summary string is presentation-only and not embedded. -/
structure DealAnalysis where
  listing : Listing
  strategy : DealStrategy
  score : ℚ
  metrics : List (String × PyFloat)
  meets_criteria : Bool
deriving DecidableEq

/-- Result of a reverse offer-price calculation (src/listingiq/models.py,
class OfferResult). -/
structure OfferResult where
  strategy : DealStrategy
  target_metric : String
  target_value : ℚ
  max_offer_price : ℚ
  metrics_at_offer : List (String × PyFloat)
  discount_from_list : ℚ
deriving DecidableEq

/-- Shared mortgage-payment helper (src/listingiq/analysis/cashflow.py lines
119-127 and the identical copy in src/listingiq/analysis/brrr.py lines
114-123): zero when principal or rate is non-positive, otherwise the
standard fixed-rate amortization formula. -/
def monthlyPayment (principal annual_rate : ℚ) (years : ℤ) : ℚ :=
  if principal ≤ 0 ∨ annual_rate ≤ 0 then 0
  else
    let monthly_rate := annual_rate / 12
    let num_payments := years * 12
    principal * (monthly_rate * (1 + monthly_rate) ^ num_payments) /
      ((1 + monthly_rate) ^ num_payments - 1)

/-! Intermediate quantities of BRRRAnalyzer._calculate_metrics
(src/listingiq/analysis/brrr.py lines 36-112), one definition per local
variable of the source, in derivation order. -/

/-- ARV estimated from the purchase price and the configured ratio. -/
def brrrEstimatedArv (cfg : BRRRConfig) (l : Listing) : ℚ :=
  l.price / cfg.max_purchase_pct_of_arv

/-- Rehab cost from square footage, with the 25000 fallback for a falsy
(zero) sqft. -/
def brrrRehabCost (cfg : BRRRConfig) (l : Listing) : ℚ :=
  if l.sqft ≠ 0 then (l.sqft : ℚ) * cfg.rehab_cost_per_sqft else 25000.0

/-- Holding costs during rehab. -/
def brrrHoldingCosts (cfg : BRRRConfig) : ℚ :=
  cfg.monthly_holding_cost * cfg.rehab_months

/-- Total cash invested. -/
def brrrTotalInvestment (cfg : BRRRConfig) (l : Listing) : ℚ :=
  l.price + brrrRehabCost cfg l + brrrHoldingCosts cfg

/-- Refinance amount: the bank lends the configured LTV share of ARV. -/
def brrrRefinanceAmount (cfg : BRRRConfig) (l : Listing) : ℚ :=
  brrrEstimatedArv cfg l * cfg.refinance_ltv

/-- Cash left in the deal after refinancing, clamped at zero. -/
def brrrCashLeftInDeal (cfg : BRRRConfig) (l : Listing) : ℚ :=
  max (brrrTotalInvestment cfg l - brrrRefinanceAmount cfg l) 0

/-- Post-rehab monthly rent, scaled from the ARV. -/
def brrrMonthlyRentArv (cfg : BRRRConfig) (cf : CashFlowConfig) (l : Listing) : ℚ :=
  brrrEstimatedArv cfg l * cf.rent_estimate_pct

/-- Monthly mortgage on the refinanced amount. -/
def brrrMonthlyMortgage (cfg : BRRRConfig) (cf : CashFlowConfig) (l : Listing) : ℚ :=
  monthlyPayment (brrrRefinanceAmount cfg l) cf.interest_rate cf.loan_term_years

/-- Monthly property tax, with the 1.2 percent of ARV fallback when the
listed annual tax is falsy (zero). -/
def brrrMonthlyTax (cfg : BRRRConfig) (l : Listing) : ℚ :=
  if l.tax_annual ≠ 0 then l.tax_annual / 12 else (brrrEstimatedArv cfg l * 0.012) / 12

/-- Total monthly expenses on the refinanced property. -/
def brrrMonthlyExpenses (cfg : BRRRConfig) (cf : CashFlowConfig) (l : Listing) : ℚ :=
  brrrMonthlyMortgage cfg cf l
    + brrrMonthlyTax cfg l
    + cf.annual_insurance / 12
    + (brrrEstimatedArv cfg l * cf.maintenance_pct) / 12
    + brrrMonthlyRentArv cfg cf l * cf.management_fee_pct
    + brrrMonthlyRentArv cfg cf l * cf.vacancy_rate
    + l.hoa_monthly

/-- Monthly cash flow of the refinanced rental. -/
def brrrMonthlyCashFlow (cfg : BRRRConfig) (cf : CashFlowConfig) (l : Listing) : ℚ :=
  brrrMonthlyRentArv cfg cf l - brrrMonthlyExpenses cfg cf l

/-- Annual cash flow of the refinanced rental. -/
def brrrAnnualCashFlow (cfg : BRRRConfig) (cf : CashFlowConfig) (l : Listing) : ℚ :=
  brrrMonthlyCashFlow cfg cf l * 12

/-- Cash-on-cash return: the ratio when cash is left in the deal, positive
infinity when no cash is left and the annual cash flow is positive, and
0.0 (the initialization value) otherwise. -/
def brrrCashOnCash (cfg : BRRRConfig) (cf : CashFlowConfig) (l : Listing) : PyFloat :=
  if 0 < brrrCashLeftInDeal cfg l then
    .fin (brrrAnnualCashFlow cfg cf l / brrrCashLeftInDeal cfg l * 100)
  else if 0 < brrrAnnualCashFlow cfg cf l then .inf
  else .fin 0

/-- Equity captured by the rehab. -/
def brrrEquityCaptured (cfg : BRRRConfig) (l : Listing) : ℚ :=
  brrrEstimatedArv cfg l - brrrRefinanceAmount cfg l

/-- The BRRRMetrics record returned by _calculate_metrics, every currency
value rounded to two decimals as in the source. -/
def brrrMetrics (cfg : BRRRConfig) (cf : CashFlowConfig) (l : Listing) : BRRRMetrics where
  purchase_price := l.price
  estimated_arv := pyRoundQ 2 (brrrEstimatedArv cfg l)
  rehab_cost := pyRoundQ 2 (brrrRehabCost cfg l)
  total_investment := pyRoundQ 2 (brrrTotalInvestment cfg l)
  holding_costs := pyRoundQ 2 (brrrHoldingCosts cfg)
  refinance_amount := pyRoundQ 2 (brrrRefinanceAmount cfg l)
  cash_left_in_deal := pyRoundQ 2 (brrrCashLeftInDeal cfg l)
  monthly_rent_estimate := pyRoundQ 2 (brrrMonthlyRentArv cfg cf l)
  monthly_expenses := pyRoundQ 2 (brrrMonthlyExpenses cfg cf l)
  monthly_cash_flow := pyRoundQ 2 (brrrMonthlyCashFlow cfg cf l)
  annual_cash_flow := pyRoundQ 2 (brrrAnnualCashFlow cfg cf l)
  cash_on_cash_return := pyRoundF 2 (brrrCashOnCash cfg cf l)
  equity_captured := pyRoundQ 2 (brrrEquityCaptured cfg l)

/-- model_dump of a BRRRMetrics record, in field order. -/
def BRRRMetrics.dump (m : BRRRMetrics) : List (String × PyFloat) :=
  [("purchase_price", .fin m.purchase_price),
   ("estimated_arv", .fin m.estimated_arv),
   ("rehab_cost", .fin m.rehab_cost),
   ("total_investment", .fin m.total_investment),
   ("holding_costs", .fin m.holding_costs),
   ("refinance_amount", .fin m.refinance_amount),
   ("cash_left_in_deal", .fin m.cash_left_in_deal),
   ("monthly_rent_estimate", .fin m.monthly_rent_estimate),
   ("monthly_expenses", .fin m.monthly_expenses),
   ("monthly_cash_flow", .fin m.monthly_cash_flow),
   ("annual_cash_flow", .fin m.annual_cash_flow),
   ("cash_on_cash_return", m.cash_on_cash_return),
   ("equity_captured", .fin m.equity_captured)]

/-- Scoring of BRRRAnalyzer._score: cash-on-cash tier bonus, up to 40
points (src/listingiq/analysis/brrr.py lines 129-137). -/
def brrrCocPts (m : BRRRMetrics) : ℚ :=
  if pyGe m.cash_on_cash_return (.fin 25) then 40
  else if pyGe m.cash_on_cash_return (.fin 15) then 30
  else if pyGe m.cash_on_cash_return (.fin 10) then 20
  else if pyGe m.cash_on_cash_return (.fin 5) then 10
  else 0

/-- Scoring of BRRRAnalyzer._score: capital-recovery component, clamped to
the interval from 0 to 25 points (lines 139-141). -/
def brrrRecoveryPts (m : BRRRMetrics) : ℚ :=
  let investment_recovery :=
    if m.total_investment ≠ 0 then 1 - m.cash_left_in_deal / m.total_investment else 0
  max 0 (min 25 (investment_recovery * 25))

/-- Scoring of BRRRAnalyzer._score: monthly cash flow tier bonus, up to 20
points (lines 143-151). -/
def brrrCashFlowPts (m : BRRRMetrics) : ℚ :=
  if m.monthly_cash_flow ≥ 500 then 20
  else if m.monthly_cash_flow ≥ 300 then 15
  else if m.monthly_cash_flow ≥ 200 then 10
  else if m.monthly_cash_flow ≥ 100 then 5
  else 0

/-- Scoring of BRRRAnalyzer._score: equity-captured tier bonus, up to 15
points (lines 153-159). -/
def brrrEquityPts (m : BRRRMetrics) : ℚ :=
  if m.equity_captured ≥ 50000 then 15
  else if m.equity_captured ≥ 30000 then 10
  else if m.equity_captured ≥ 15000 then 5
  else 0

/-- BRRRAnalyzer._score: the tier bonuses summed, rounded to one decimal
and capped at 100. -/
def brrrScore (m : BRRRMetrics) : ℚ :=
  min 100 (pyRoundQ 1 (brrrCocPts m + brrrRecoveryPts m + brrrCashFlowPts m + brrrEquityPts m))

/-- BRRRAnalyzer._meets_criteria (src/listingiq/analysis/brrr.py lines
163-168). -/
def brrrMeets (cfg : BRRRConfig) (m : BRRRMetrics) : Bool :=
  pyGe m.cash_on_cash_return (.fin cfg.min_cash_on_cash_return)
    && decide (0 < m.monthly_cash_flow)

/-- BRRRAnalyzer.analyze (src/listingiq/analysis/brrr.py lines 21-34).
Note the source signature takes only the listing: it has no rent or ARV
estimate parameters. -/
def brrrAnalyze (cfg : BRRRConfig) (cf : CashFlowConfig) (l : Listing) : DealAnalysis :=
  let m := brrrMetrics cfg cf l
  { listing := l
    strategy := .brrr
    score := brrrScore m
    metrics := m.dump
    meets_criteria := brrrMeets cfg m }

/-- Parameter list of BRRRAnalyzer.analyze (src/listingiq/analysis/brrr.py
line 21): the listing only. -/
def brrrAnalyzeParams : List String := ["listing"]

/-- Parameter list of CashFlowAnalyzer.analyze
(src/listingiq/analysis/cashflow.py lines 20-24). -/
def cashflowAnalyzeParams : List String := ["listing", "rent_estimate"]

/-- Parameter list of FlipAnalyzer.analyze (src/listingiq/analysis/flip.py
lines 19-23). -/
def flipAnalyzeParams : List String := ["listing", "arv_estimate"]

/-! Intermediate quantities of CashFlowAnalyzer._calculate_metrics
(src/listingiq/analysis/cashflow.py lines 38-117), one definition per
local variable of the source. -/

/-- Down payment. -/
def cfDownPayment (cfg : CashFlowConfig) (l : Listing) : ℚ :=
  l.price * cfg.down_payment_pct

/-- Loan amount. -/
def cfLoanAmount (cfg : CashFlowConfig) (l : Listing) : ℚ :=
  l.price - cfDownPayment cfg l

/-- Monthly mortgage payment on the loan. -/
def cfMonthlyMortgage (cfg : CashFlowConfig) (l : Listing) : ℚ :=
  monthlyPayment (cfLoanAmount cfg l) cfg.interest_rate cfg.loan_term_years

/-- Monthly rent: the comp-based estimate when supplied (is not None),
otherwise the configured percentage of the price. -/
def cfMonthlyRent (cfg : CashFlowConfig) (l : Listing) (rent_estimate : Option ℚ) : ℚ :=
  match rent_estimate with
  | some r => r
  | none => l.price * cfg.rent_estimate_pct

/-- Effective rent after vacancy. -/
def cfEffectiveRent (cfg : CashFlowConfig) (l : Listing) (re : Option ℚ) : ℚ :=
  cfMonthlyRent cfg l re * (1 - cfg.vacancy_rate)

/-- Monthly property tax, with the 1.2 percent of price fallback when the
listed annual tax is falsy (zero). -/
def cfMonthlyTax (l : Listing) : ℚ :=
  if l.tax_annual ≠ 0 then l.tax_annual / 12 else (l.price * 0.012) / 12

/-- Total monthly expenses. -/
def cfMonthlyExpenses (cfg : CashFlowConfig) (l : Listing) (re : Option ℚ) : ℚ :=
  cfMonthlyMortgage cfg l
    + cfMonthlyTax l
    + cfg.annual_insurance / 12
    + (l.price * cfg.maintenance_pct) / 12
    + cfMonthlyRent cfg l re * cfg.management_fee_pct
    + l.hoa_monthly

/-- Monthly cash flow. -/
def cfMonthlyCashFlow (cfg : CashFlowConfig) (l : Listing) (re : Option ℚ) : ℚ :=
  cfEffectiveRent cfg l re - cfMonthlyExpenses cfg l re

/-- Annual cash flow. -/
def cfAnnualCashFlow (cfg : CashFlowConfig) (l : Listing) (re : Option ℚ) : ℚ :=
  cfMonthlyCashFlow cfg l re * 12

/-- Net operating income: gross income minus vacancy loss minus operating
expenses, the latter excluding debt service. -/
def cfNoi (cfg : CashFlowConfig) (l : Listing) (re : Option ℚ) : ℚ :=
  let annual_gross_income := cfMonthlyRent cfg l re * 12
  let annual_vacancy_loss := annual_gross_income * cfg.vacancy_rate
  let annual_operating_expenses :=
    (cfMonthlyTax l + cfg.annual_insurance / 12 + (l.price * cfg.maintenance_pct) / 12
      + cfMonthlyRent cfg l re * cfg.management_fee_pct + l.hoa_monthly) * 12
  annual_gross_income - annual_vacancy_loss - annual_operating_expenses

/-- Cap rate, zero for a non-positive price. -/
def cfCapRate (cfg : CashFlowConfig) (l : Listing) (re : Option ℚ) : ℚ :=
  if 0 < l.price then cfNoi cfg l re / l.price * 100 else 0

/-- Cash-on-cash return, zero when the cash invested is non-positive. -/
def cfCashOnCash (cfg : CashFlowConfig) (l : Listing) (re : Option ℚ) : ℚ :=
  if 0 < cfDownPayment cfg l then cfAnnualCashFlow cfg l re / cfDownPayment cfg l * 100 else 0

/-- Annual debt service. -/
def cfAnnualDebtService (cfg : CashFlowConfig) (l : Listing) : ℚ :=
  cfMonthlyMortgage cfg l * 12

/-- Debt service coverage ratio, positive infinity when the annual debt
service is not positive. -/
def cfDscr (cfg : CashFlowConfig) (l : Listing) (re : Option ℚ) : PyFloat :=
  if 0 < cfAnnualDebtService cfg l then .fin (cfNoi cfg l re / cfAnnualDebtService cfg l)
  else .inf

/-- Annual rent. -/
def cfAnnualRent (cfg : CashFlowConfig) (l : Listing) (re : Option ℚ) : ℚ :=
  cfMonthlyRent cfg l re * 12

/-- Gross rent multiplier, positive infinity when the annual rent is not
positive. -/
def cfGrm (cfg : CashFlowConfig) (l : Listing) (re : Option ℚ) : PyFloat :=
  if 0 < cfAnnualRent cfg l re then .fin (l.price / cfAnnualRent cfg l re)
  else .inf

/-- The CashFlowMetrics record returned by _calculate_metrics, rounded to
two decimals as in the source. -/
def cashflowMetrics (cfg : CashFlowConfig) (l : Listing) (re : Option ℚ) : CashFlowMetrics where
  purchase_price := l.price
  down_payment := pyRoundQ 2 (cfDownPayment cfg l)
  loan_amount := pyRoundQ 2 (cfLoanAmount cfg l)
  monthly_mortgage := pyRoundQ 2 (cfMonthlyMortgage cfg l)
  monthly_rent_estimate := pyRoundQ 2 (cfMonthlyRent cfg l re)
  effective_rent := pyRoundQ 2 (cfEffectiveRent cfg l re)
  monthly_expenses := pyRoundQ 2 (cfMonthlyExpenses cfg l re)
  monthly_cash_flow := pyRoundQ 2 (cfMonthlyCashFlow cfg l re)
  annual_cash_flow := pyRoundQ 2 (cfAnnualCashFlow cfg l re)
  cap_rate := pyRoundQ 2 (cfCapRate cfg l re)
  cash_on_cash_return := pyRoundQ 2 (cfCashOnCash cfg l re)
  noi := pyRoundQ 2 (cfNoi cfg l re)
  dscr := pyRoundF 2 (cfDscr cfg l re)
  grm := pyRoundF 2 (cfGrm cfg l re)

/-- model_dump of a CashFlowMetrics record, in field order. -/
def CashFlowMetrics.dump (m : CashFlowMetrics) : List (String × PyFloat) :=
  [("purchase_price", .fin m.purchase_price),
   ("down_payment", .fin m.down_payment),
   ("loan_amount", .fin m.loan_amount),
   ("monthly_mortgage", .fin m.monthly_mortgage),
   ("monthly_rent_estimate", .fin m.monthly_rent_estimate),
   ("effective_rent", .fin m.effective_rent),
   ("monthly_expenses", .fin m.monthly_expenses),
   ("monthly_cash_flow", .fin m.monthly_cash_flow),
   ("annual_cash_flow", .fin m.annual_cash_flow),
   ("cap_rate", .fin m.cap_rate),
   ("cash_on_cash_return", .fin m.cash_on_cash_return),
   ("noi", .fin m.noi),
   ("dscr", m.dscr),
   ("grm", m.grm)]

/-- Scoring of CashFlowAnalyzer._score: monthly cash flow tier bonus, up
to 35 points (src/listingiq/analysis/cashflow.py lines 132-142). -/
def cfCashFlowPts (m : CashFlowMetrics) : ℚ :=
  if m.monthly_cash_flow ≥ 500 then 35
  else if m.monthly_cash_flow ≥ 300 then 25
  else if m.monthly_cash_flow ≥ 200 then 18
  else if m.monthly_cash_flow ≥ 100 then 10
  else if m.monthly_cash_flow > 0 then 5
  else 0

/-- Scoring of CashFlowAnalyzer._score: cap rate tier bonus, up to 25
points (lines 144-152). -/
def cfCapRatePts (m : CashFlowMetrics) : ℚ :=
  if m.cap_rate ≥ 10 then 25
  else if m.cap_rate ≥ 8 then 20
  else if m.cap_rate ≥ 6 then 15
  else if m.cap_rate ≥ 4 then 8
  else 0

/-- Scoring of CashFlowAnalyzer._score: cash-on-cash tier bonus, up to 20
points (lines 154-162). -/
def cfCocPts (m : CashFlowMetrics) : ℚ :=
  if m.cash_on_cash_return ≥ 15 then 20
  else if m.cash_on_cash_return ≥ 10 then 15
  else if m.cash_on_cash_return ≥ 8 then 10
  else if m.cash_on_cash_return ≥ 5 then 5
  else 0

/-- Scoring of CashFlowAnalyzer._score: DSCR tier bonus, up to 10 points
(lines 164-170). -/
def cfDscrPts (m : CashFlowMetrics) : ℚ :=
  if pyGe m.dscr (.fin 1.5) then 10
  else if pyGe m.dscr (.fin 1.25) then 7
  else if pyGe m.dscr (.fin 1.0) then 3
  else 0

/-- Scoring of CashFlowAnalyzer._score: GRM bonus, up to 10 points, lower
is better (lines 172-178). -/
def cfGrmPts (m : CashFlowMetrics) : ℚ :=
  if pyLe m.grm (.fin 8) then 10
  else if pyLe m.grm (.fin 10) then 7
  else if pyLe m.grm (.fin 12) then 4
  else 0

/-- CashFlowAnalyzer._score: the tier bonuses summed, rounded to one
decimal and capped at 100. -/
def cashflowScore (m : CashFlowMetrics) : ℚ :=
  min 100 (pyRoundQ 1 (cfCashFlowPts m + cfCapRatePts m + cfCocPts m + cfDscrPts m + cfGrmPts m))

/-- CashFlowAnalyzer._meets_criteria (src/listingiq/analysis/cashflow.py
lines 182-186). -/
def cashflowMeets (cfg : CashFlowConfig) (m : CashFlowMetrics) : Bool :=
  decide (m.monthly_cash_flow ≥ cfg.min_monthly_cash_flow)
    && decide (m.cap_rate ≥ cfg.min_cap_rate)

/-- CashFlowAnalyzer.analyze (src/listingiq/analysis/cashflow.py lines
20-36). -/
def cashflowAnalyze (cfg : CashFlowConfig) (l : Listing) (re : Option ℚ) : DealAnalysis :=
  let m := cashflowMetrics cfg l re
  { listing := l
    strategy := .cash_flow
    score := cashflowScore m
    metrics := m.dump
    meets_criteria := cashflowMeets cfg m }

/-! Intermediate quantities of FlipAnalyzer._calculate_metrics
(src/listingiq/analysis/flip.py lines 37-83). -/

/-- Estimated ARV: the comp-based estimate when supplied (is not None),
otherwise the price over the configured ratio. -/
def flipEstimatedArv (cfg : FlipConfig) (l : Listing) (arv_estimate : Option ℚ) : ℚ :=
  match arv_estimate with
  | some a => a
  | none => l.price / cfg.max_purchase_pct_of_arv

/-- Rehab cost at the fixed 35.0 per sqft flip rate, with the 30000
fallback for a falsy (zero) sqft. -/
def flipRehabCost (l : Listing) : ℚ :=
  if l.sqft ≠ 0 then (l.sqft : ℚ) * 35.0 else 30000.0

/-- Holding costs during the project. -/
def flipHoldingCosts (cfg : FlipConfig) : ℚ :=
  cfg.monthly_holding_cost * cfg.project_months

/-- Selling costs as a share of ARV. -/
def flipSellingCosts (cfg : FlipConfig) (l : Listing) (ae : Option ℚ) : ℚ :=
  flipEstimatedArv cfg l ae * cfg.selling_cost_pct

/-- Total cost of the flip. -/
def flipTotalCost (cfg : FlipConfig) (l : Listing) (ae : Option ℚ) : ℚ :=
  l.price + flipRehabCost l + flipHoldingCosts cfg + flipSellingCosts cfg l ae

/-- Estimated profit. -/
def flipEstimatedProfit (cfg : FlipConfig) (l : Listing) (ae : Option ℚ) : ℚ :=
  flipEstimatedArv cfg l ae - flipTotalCost cfg l ae

/-- Return on investment, zero when the denominator is non-positive. -/
def flipRoi (cfg : FlipConfig) (l : Listing) (ae : Option ℚ) : ℚ :=
  if 0 < l.price + flipRehabCost l then
    flipEstimatedProfit cfg l ae / (l.price + flipRehabCost l) * 100
  else 0

/-- Profit per month, zero when the project length is non-positive. -/
def flipProfitPerMonth (cfg : FlipConfig) (l : Listing) (ae : Option ℚ) : ℚ :=
  if 0 < cfg.project_months then flipEstimatedProfit cfg l ae / cfg.project_months else 0

/-- The FlipMetrics record returned by _calculate_metrics, rounded to two
decimals as in the source. -/
def flipMetrics (cfg : FlipConfig) (l : Listing) (ae : Option ℚ) : FlipMetrics where
  purchase_price := l.price
  estimated_arv := pyRoundQ 2 (flipEstimatedArv cfg l ae)
  rehab_cost := pyRoundQ 2 (flipRehabCost l)
  holding_costs := pyRoundQ 2 (flipHoldingCosts cfg)
  selling_costs := pyRoundQ 2 (flipSellingCosts cfg l ae)
  total_cost := pyRoundQ 2 (flipTotalCost cfg l ae)
  estimated_profit := pyRoundQ 2 (flipEstimatedProfit cfg l ae)
  roi := pyRoundQ 2 (flipRoi cfg l ae)
  profit_per_month := pyRoundQ 2 (flipProfitPerMonth cfg l ae)

/-- model_dump of a FlipMetrics record, in field order. -/
def FlipMetrics.dump (m : FlipMetrics) : List (String × PyFloat) :=
  [("purchase_price", .fin m.purchase_price),
   ("estimated_arv", .fin m.estimated_arv),
   ("rehab_cost", .fin m.rehab_cost),
   ("holding_costs", .fin m.holding_costs),
   ("selling_costs", .fin m.selling_costs),
   ("total_cost", .fin m.total_cost),
   ("estimated_profit", .fin m.estimated_profit),
   ("roi", .fin m.roi),
   ("profit_per_month", .fin m.profit_per_month)]

/-- Scoring of FlipAnalyzer._score: profit tier bonus, up to 40 points
(src/listingiq/analysis/flip.py lines 88-96). -/
def flipProfitPts (m : FlipMetrics) : ℚ :=
  if m.estimated_profit ≥ 75000 then 40
  else if m.estimated_profit ≥ 50000 then 30
  else if m.estimated_profit ≥ 30000 then 20
  else if m.estimated_profit ≥ 15000 then 10
  else 0

/-- Scoring of FlipAnalyzer._score: ROI tier bonus, up to 30 points
(lines 98-106). -/
def flipRoiPts (m : FlipMetrics) : ℚ :=
  if m.roi ≥ 30 then 30
  else if m.roi ≥ 20 then 22
  else if m.roi ≥ 15 then 15
  else if m.roi ≥ 10 then 8
  else 0

/-- Scoring of FlipAnalyzer._score: profit-per-month tier bonus, up to 20
points (lines 108-116). -/
def flipPpmPts (m : FlipMetrics) : ℚ :=
  if m.profit_per_month ≥ 10000 then 20
  else if m.profit_per_month ≥ 7000 then 15
  else if m.profit_per_month ≥ 5000 then 10
  else if m.profit_per_month ≥ 3000 then 5
  else 0

/-- Scoring of FlipAnalyzer._score: ARV spread bonus, up to 10 points
(lines 118-125). -/
def flipSpreadPts (m : FlipMetrics) : ℚ :=
  let spread := m.estimated_arv - m.purchase_price
  if spread ≥ 100000 then 10
  else if spread ≥ 75000 then 7
  else if spread ≥ 50000 then 4
  else 0

/-- FlipAnalyzer._score: the tier bonuses summed, rounded to one decimal
and capped at 100. -/
def flipScore (m : FlipMetrics) : ℚ :=
  min 100 (pyRoundQ 1 (flipProfitPts m + flipRoiPts m + flipPpmPts m + flipSpreadPts m))

/-- FlipAnalyzer._meets_criteria (src/listingiq/analysis/flip.py lines
129-130). -/
def flipMeets (cfg : FlipConfig) (m : FlipMetrics) : Bool :=
  decide (m.estimated_profit ≥ cfg.min_profit) && decide (m.roi > 0)

/-- FlipAnalyzer.analyze (src/listingiq/analysis/flip.py lines 19-35). -/
def flipAnalyze (cfg : FlipConfig) (l : Listing) (ae : Option ℚ) : DealAnalysis :=
  let m := flipMetrics cfg l ae
  { listing := l
    strategy := .flip
    score := flipScore m
    metrics := m.dump
    meets_criteria := flipMeets cfg m }

/-! Embedding of DealAnalyzer (src/listingiq/analysis/engine.py).  The
analyzer registry is a dict populated in the fixed order brrr, cash_flow,
flip for whichever of those names appear in cfg.strategies; iteration in
analyze_listing follows that insertion order.  The brrr dispatch at lines
41-44 passes the keywords rent_estimate and arv_estimate, which the
signature of BRRRAnalyzer.analyze does not accept, so that call raises
TypeError; the cash_flow and flip dispatches pass keywords their callees
do accept.  analyze_listing has no exception handler, so a raise aborts
the whole call. -/

/-- Insertion order of the analyzer registry built by the DealAnalyzer
constructor (src/listingiq/analysis/engine.py lines 17-24). -/
def engineStrategyOrder (strategies : List String) : List String :=
  (if strategies.contains "brrr" then ["brrr"] else [])
    ++ (if strategies.contains "cash_flow" then ["cash_flow"] else [])
    ++ (if strategies.contains "flip" then ["flip"] else [])

/-- The call analyzer.analyze(listing, rent_estimate=..., arv_estimate=...)
made for a BRRRAnalyzer by the engine (engine.py lines 41-44) and the
offer calculator (offer.py lines 162-164 and 174-176): keyword binding
against the parameter list of BRRRAnalyzer.analyze. -/
def brrrAnalyzeCall (cfg : AnalysisConfig) (l : Listing) (_re _ae : Option ℚ) :
    Except PyErr DealAnalysis := do
  let _ ← bindKwargs brrrAnalyzeParams ["rent_estimate", "arv_estimate"]
  .ok (brrrAnalyze cfg.brrr cfg.cash_flow l)

/-- The call analyzer.analyze(listing, rent_estimate=...) made for a
CashFlowAnalyzer (engine.py line 46): the keyword binds. -/
def cashflowAnalyzeCall (cfg : AnalysisConfig) (l : Listing) (re : Option ℚ) :
    Except PyErr DealAnalysis := do
  let _ ← bindKwargs cashflowAnalyzeParams ["rent_estimate"]
  .ok (cashflowAnalyze cfg.cash_flow l re)

/-- The call analyzer.analyze(listing, arv_estimate=...) made for a
FlipAnalyzer (engine.py line 48): the keyword binds. -/
def flipAnalyzeCall (cfg : AnalysisConfig) (l : Listing) (ae : Option ℚ) :
    Except PyErr DealAnalysis := do
  let _ ← bindKwargs flipAnalyzeParams ["arv_estimate"]
  .ok (flipAnalyze cfg.flip l ae)

/-- One iteration of the dispatch loop of DealAnalyzer.analyze_listing
(engine.py lines 40-51), keyed by the registry name. -/
def engineAnalyzeOne (cfg : AnalysisConfig) (l : Listing) (re ae : Option ℚ) :
    String → Except PyErr DealAnalysis
  | "brrr" => brrrAnalyzeCall cfg l re ae
  | "cash_flow" => cashflowAnalyzeCall cfg l re
  | "flip" => flipAnalyzeCall cfg l ae
  | _ => .error .valueError

/-- DealAnalyzer.analyze_listing (engine.py lines 26-52): one DealAnalysis
per registered strategy, with no exception handling. -/
def engineAnalyzeListing (cfg : AnalysisConfig) (l : Listing) (re ae : Option ℚ) :
    Except PyErr (List DealAnalysis) :=
  (engineStrategyOrder cfg.strategies).mapM (engineAnalyzeOne cfg l re ae)

/-- DealAnalyzer.analyze_listings (engine.py lines 54-67). -/
def engineAnalyzeListings (cfg : AnalysisConfig) (ls : List Listing) (re ae : Option ℚ) :
    Except PyErr (List DealAnalysis) :=
  (ls.mapM (fun l => engineAnalyzeListing cfg l re ae)).map List.flatten

/-- The qualification filter of DealAnalyzer.get_top_deals (engine.py line
81): score at least min_score and meets_criteria. -/
def topDealsPred (min_score : ℚ) (d : DealAnalysis) : Bool :=
  decide (d.score ≥ min_score) && d.meets_criteria

/-- The comparison realized by qualified.sort(key=lambda d: d.score,
reverse=True) (engine.py line 82): Python list.sort is a stable merge
sort, and reverse=True inverts the key comparison while keeping equal
elements in input order. -/
def topDealsLe (a b : DealAnalysis) : Bool := decide (b.score ≤ a.score)

/-- DealAnalyzer.get_top_deals (engine.py lines 69-83). -/
def engineGetTopDeals (cfg : AnalysisConfig) (ls : List Listing) (min_score : ℚ)
    (limit : ℕ) (re ae : Option ℚ) : Except PyErr (List DealAnalysis) :=
  (engineAnalyzeListings cfg ls re ae).map fun deals =>
    ((deals.filter (topDealsPred min_score)).mergeSort topDealsLe).take limit

/-! Embedding of OfferCalculator (src/listingiq/analysis/offer.py). -/

/-- Conversion DealStrategy(strategy) of the strategy string (offer.py
lines 52-53): an unrecognized name raises ValueError. -/
def parseStrategy : String → Except PyErr DealStrategy
  | "brrr" => .ok .brrr
  | "cash_flow" => .ok .cash_flow
  | "flip" => .ok .flip
  | _ => .error .valueError

/-- Target metric name of _calc_cashflow_offer (offer.py line 99). -/
def cfOfferMetric (tm : Option String) : String := pyStrOr tm "monthly_cash_flow"

/-- Target value of _calc_cashflow_offer (offer.py lines 100-103). -/
def cfOfferTarget (ocfg : OfferConfig) (tm : Option String) (tv : Option ℚ) : ℚ :=
  if cfOfferMetric tm = "monthly_cash_flow" then tv.getD ocfg.cash_flow_target_monthly
  else tv.getD ocfg.cash_flow_target_coc

/-- Metric value read back from a cash-flow analysis of the listing with
its price replaced, deal.metrics.get(metric, 0) (offer.py lines 115-118). -/
def cfMetricAt (cfg : AnalysisConfig) (l : Listing) (re : Option ℚ) (metric : String)
    (p : ℚ) : PyFloat :=
  dictGet (cashflowAnalyze cfg.cash_flow { l with price := p } re).metrics metric (.fin 0)

/-- The bounded binary search of _calc_cashflow_offer (offer.py lines
110-123), with the iteration count as fuel: stop on tolerance or fuel,
move low (and record best) when the metric at mid reaches the target,
move high otherwise. -/
def cfSearchLoop (cfg : AnalysisConfig) (l : Listing) (re : Option ℚ) (metric : String)
    (target : ℚ) : ℕ → ℚ → ℚ → ℚ → ℚ
  | 0, _, _, best => best
  | n + 1, low, high, best =>
    if high - low < cfg.offer.price_tolerance then best
    else
      let mid := (low + high) / 2
      if pyGe (cfMetricAt cfg l re metric mid) (.fin target) then
        cfSearchLoop cfg l re metric target n mid high mid
      else
        cfSearchLoop cfg l re metric target n low mid best

/-- The best price found by the cash-flow binary search, starting from the
window low = 1000, high = 1.5 times the list price, best = low (offer.py
lines 105-123). -/
def cfBestPrice (cfg : AnalysisConfig) (l : Listing) (tm : Option String) (tv re : Option ℚ) : ℚ :=
  cfSearchLoop cfg l re (cfOfferMetric tm) (cfOfferTarget cfg.offer tm tv)
    cfg.offer.max_iterations 1000 (l.price * 1.5) 1000

/-- OfferCalculator._calc_cashflow_offer (offer.py lines 91-138). -/
def calcCashflowOffer (cfg : AnalysisConfig) (l : Listing) (tm : Option String)
    (tv re : Option ℚ) : OfferResult :=
  let best := cfBestPrice cfg l tm tv re
  let final_deal := cashflowAnalyze cfg.cash_flow { l with price := best } re
  let discount := if 0 < l.price then (l.price - best) / l.price * 100 else 0
  { strategy := .cash_flow
    target_metric := cfOfferMetric tm
    target_value := cfOfferTarget cfg.offer tm tv
    max_offer_price := pyRoundQ 0 best
    metrics_at_offer := final_deal.metrics
    discount_from_list := pyRoundQ 1 discount }

/-- The binary search of _calc_brrr_offer (offer.py lines 156-171): each
iteration calls BRRRAnalyzer.analyze with the rent_estimate and
arv_estimate keywords, so the first executed call raises. -/
def brrrSearchLoop (cfg : AnalysisConfig) (l : Listing) (re ae : Option ℚ) (metric : String)
    (target : ℚ) : ℕ → ℚ → ℚ → ℚ → Except PyErr ℚ
  | 0, _, _, best => .ok best
  | n + 1, low, high, best =>
    if high - low < cfg.offer.price_tolerance then .ok best
    else do
      let mid := (low + high) / 2
      let deal ← brrrAnalyzeCall cfg { l with price := mid } re ae
      if pyGe (dictGet deal.metrics metric (.fin 0)) (.fin target) then
        brrrSearchLoop cfg l re ae metric target n mid high mid
      else
        brrrSearchLoop cfg l re ae metric target n low mid best

/-- OfferCalculator._calc_brrr_offer (offer.py lines 140-187). -/
def calcBrrrOffer (cfg : AnalysisConfig) (l : Listing) (tm : Option String)
    (tv re ae : Option ℚ) : Except PyErr OfferResult := do
  let metric := pyStrOr tm "cash_on_cash_return"
  let target := tv.getD cfg.offer.brrr_target_coc
  let best ← brrrSearchLoop cfg l re ae metric target cfg.offer.max_iterations
    1000 (l.price * 1.5) 1000
  let final_deal ← brrrAnalyzeCall cfg { l with price := best } re ae
  let discount := if 0 < l.price then (l.price - best) / l.price * 100 else 0
  .ok { strategy := .brrr
        target_metric := metric
        target_value := target
        max_offer_price := pyRoundQ 0 best
        metrics_at_offer := final_deal.metrics
        discount_from_list := pyRoundQ 1 discount }

/-- ARV used by _calc_flip_offer (offer.py lines 204-208): the external
estimate when truthy, else the price over the configured ratio. -/
def flipOfferArv (cfg : AnalysisConfig) (l : Listing) (ae : Option ℚ) : ℚ :=
  if pyTruthyOpt ae then ae.getD 0 else l.price / cfg.flip.max_purchase_pct_of_arv

/-- Rehab cost used by _calc_flip_offer (offer.py lines 211-212). -/
def flipOfferRehabCost (l : Listing) : ℚ :=
  if l.sqft ≠ 0 then (l.sqft : ℚ) * 35.0 else 30000.0

/-- The closed-form solve of _calc_flip_offer before the clamp at zero
(offer.py lines 213-217). -/
def flipOfferUnclamped (cfg : AnalysisConfig) (l : Listing) (tv ae : Option ℚ) : ℚ :=
  flipOfferArv cfg l ae - flipOfferRehabCost l
    - cfg.flip.monthly_holding_cost * cfg.flip.project_months
    - flipOfferArv cfg l ae * cfg.flip.selling_cost_pct
    - tv.getD cfg.offer.flip_target_profit

/-- The max offer of _calc_flip_offer after the clamp at zero (offer.py
line 218). -/
def flipOfferMax (cfg : AnalysisConfig) (l : Listing) (tv ae : Option ℚ) : ℚ :=
  max (flipOfferUnclamped cfg l tv ae) 0

/-- OfferCalculator._calc_flip_offer (offer.py lines 189-233).  The final
metrics come from FlipAnalyzer.analyze on a copy of the listing whose
price is the (unrounded) max offer. -/
def calcFlipOffer (cfg : AnalysisConfig) (l : Listing) (tm : Option String)
    (tv ae : Option ℚ) : OfferResult :=
  let max_offer := flipOfferMax cfg l tv ae
  let final_deal := flipAnalyze cfg.flip { l with price := max_offer } ae
  let discount := if 0 < l.price then (l.price - max_offer) / l.price * 100 else 0
  { strategy := .flip
    target_metric := pyStrOr tm "estimated_profit"
    target_value := tv.getD cfg.offer.flip_target_profit
    max_offer_price := pyRoundQ 0 max_offer
    metrics_at_offer := final_deal.metrics
    discount_from_list := pyRoundQ 1 discount }

/-- OfferCalculator.calculate_offer_price (offer.py lines 30-68): parse
the strategy name, then dispatch to the strategy-specific calculation. -/
def calculateOfferPrice (cfg : AnalysisConfig) (l : Listing) (strategy : String)
    (tm : Option String) (tv re ae : Option ℚ) : Except PyErr OfferResult := do
  let s ← parseStrategy strategy
  match s with
  | .cash_flow => .ok (calcCashflowOffer cfg l tm tv re)
  | .brrr => calcBrrrOffer cfg l tm tv re ae
  | .flip => .ok (calcFlipOffer cfg l tm tv ae)

/-- The listing built by the test fixture of src/tests/test_offer.py and
src/tests/test_analysis.py. -/
def testListing : Listing where
  source := "test"
  source_id := "test-1"
  price := 200000
  beds := 3
  baths := 2
  sqft := 1400
  tax_annual := 3600

/-! Helper lemmas about the Python-modelling primitives. -/

/-- Infinity satisfies any finite lower threshold. -/
theorem pyGe_inf_fin (t : ℚ) : pyGe .inf (.fin t) = true := rfl

/-- Round-half-even of a non-negative rational is non-negative. -/
theorem rhe_nonneg {q : ℚ} (h : 0 ≤ q) : 0 ≤ rhe q := by
  unfold rhe
  dsimp only
  have hf : (0 : ℤ) ≤ ⌊q⌋ := Int.floor_nonneg.mpr h
  split
  · exact hf
  · split
    · omega
    · split <;> omega

/-- Round-half-even of a non-positive rational is non-positive. -/
theorem rhe_nonpos {q : ℚ} (h : q ≤ 0) : rhe q ≤ 0 := by
  unfold rhe
  dsimp only
  have hf : ⌊q⌋ ≤ 0 := Int.floor_nonpos h
  have hneg : ¬(q - (⌊q⌋ : ℚ) < 1 / 2) → ⌊q⌋ + 1 ≤ 0 := by
    intro h1
    have h2 : (1 : ℚ) / 2 ≤ q - (⌊q⌋ : ℚ) := not_lt.mp h1
    have h3 : (⌊q⌋ : ℚ) ≤ -(1 / 2) := by linarith
    have h4 : ⌊q⌋ < 0 := by
      by_contra h5
      push_neg at h5
      have : (0 : ℚ) ≤ (⌊q⌋ : ℚ) := by exact_mod_cast h5
      linarith
    omega
  split
  · exact hf
  · next h1 =>
    split
    · exact hneg h1
    · split
      · exact hf
      · exact hneg h1

/-- Python round to n decimals preserves non-negativity. -/
theorem pyRoundQ_nonneg (n : ℕ) {q : ℚ} (h : 0 ≤ q) : 0 ≤ pyRoundQ n q := by
  unfold pyRoundQ
  have h1 : 0 ≤ q * 10 ^ n := by positivity
  have h2 : (0 : ℚ) ≤ (rhe (q * 10 ^ n) : ℚ) := by exact_mod_cast rhe_nonneg h1
  positivity

/-- Python round to n decimals preserves non-positivity. -/
theorem pyRoundQ_nonpos (n : ℕ) {q : ℚ} (h : q ≤ 0) : pyRoundQ n q ≤ 0 := by
  unfold pyRoundQ
  have h1 : q * 10 ^ n ≤ 0 := by
    have : (0 : ℚ) < 10 ^ n := by positivity
    exact mul_nonpos_of_nonpos_of_nonneg h (by positivity)
  have h2 : (rhe (q * 10 ^ n) : ℚ) ≤ 0 := by exact_mod_cast rhe_nonpos h1
  have h3 : (0 : ℚ) < 10 ^ n := by positivity
  exact div_nonpos_of_nonpos_of_nonneg h2 (le_of_lt h3)

/-- A positive rounded value comes from a positive raw value. -/
theorem pyRoundQ_pos {n : ℕ} {q : ℚ} (h : 0 < pyRoundQ n q) : 0 < q := by
  by_contra hq
  push_neg at hq
  exact absurd h (not_lt.mpr (pyRoundQ_nonpos n hq))

/-- Rounding to n decimals maps finite values to finite values and
infinity to infinity. -/
theorem pyRoundF_eq_inf_iff (n : ℕ) (x : PyFloat) : pyRoundF n x = .inf ↔ x = .inf := by
  cases x <;> simp [pyRoundF]

/-! Claim C8: the shared mortgage-payment function. -/

/-- C8: the shared mortgage-payment function returns 0 whenever the
principal or the annual rate is non-positive, and for positive principal,
rate and years it returns exactly the standard amortization formula
principal * r(1+r)^n / ((1+r)^n - 1) with r the monthly rate and n the
number of monthly payments; for positive years the denominator is
positive, so the formula has no division by zero and the function has no
error path. -/
theorem monthly_payment_spec (p r : ℚ) (y : ℤ) :
    (p ≤ 0 ∨ r ≤ 0 → monthlyPayment p r y = 0) ∧
    (0 < p → 0 < r → 0 < y →
      monthlyPayment p r y =
        p * (r / 12 * (1 + r / 12) ^ (y * 12)) / ((1 + r / 12) ^ (y * 12) - 1) ∧
      0 < (1 + r / 12) ^ (y * 12) - 1) := by
  constructor
  · intro h
    unfold monthlyPayment
    rw [if_pos h]
  · intro hp hr hy
    have hguard : ¬(p ≤ 0 ∨ r ≤ 0) := by push_neg; exact ⟨hp, hr⟩
    have hbase : (1 : ℚ) < 1 + r / 12 := by linarith
    have hpow : (1 : ℚ) < (1 + r / 12) ^ (y * 12) :=
      one_lt_zpow₀ hbase (by omega)
    constructor
    · unfold monthlyPayment
      rw [if_neg hguard]
    · linarith

/-- Witness for C8: the zero branch at principal 0 and the formula branch
at principal 4095, annual rate 12 and one year, where the monthly rate is
1 and the payment is 4095 * 4096 / 4095 = 4096. -/
theorem monthly_payment_spec_witness :
    monthlyPayment 0 0.07 30 = 0 ∧
    (monthlyPayment 4095 12 1 =
        4095 * (12 / 12 * (1 + 12 / 12) ^ ((1 : ℤ) * 12)) / ((1 + 12 / 12) ^ ((1 : ℤ) * 12) - 1) ∧
      0 < ((1 : ℚ) + 12 / 12) ^ ((1 : ℤ) * 12) - 1) :=
  ⟨(monthly_payment_spec 0 0.07 30).1 (Or.inl le_rfl),
   (monthly_payment_spec 4095 12 1).2 (by norm_num) (by norm_num) (by norm_num)⟩

/-! Claim C4: every score is in the closed interval from 0 to 100. -/

/-- A capped rounded sum of non-negative bonuses lies between 0 and 100. -/
theorem score_cap_bounds {x : ℚ} (hx : 0 ≤ x) :
    0 ≤ min 100 (pyRoundQ 1 x) ∧ min 100 (pyRoundQ 1 x) ≤ 100 :=
  ⟨le_min (by norm_num) (pyRoundQ_nonneg 1 hx), min_le_left _ _⟩

/-- Every tier bonus of the BRRR scoring function is non-negative, and the
capital-recovery component is moreover clamped to at most 25. -/
theorem brrr_pts_nonneg (m : BRRRMetrics) :
    0 ≤ brrrCocPts m ∧ (0 ≤ brrrRecoveryPts m ∧ brrrRecoveryPts m ≤ 25) ∧
      0 ≤ brrrCashFlowPts m ∧ 0 ≤ brrrEquityPts m := by
  refine ⟨?_, ⟨le_max_left 0 _, ?_⟩, ?_, ?_⟩
  · unfold brrrCocPts; split_ifs <;> norm_num
  · exact max_le (by norm_num) (min_le_left _ _)
  · unfold brrrCashFlowPts; split_ifs <;> norm_num
  · unfold brrrEquityPts; split_ifs <;> norm_num

/-- Every tier bonus of the cash-flow scoring function is non-negative. -/
theorem cashflow_pts_nonneg (m : CashFlowMetrics) :
    0 ≤ cfCashFlowPts m ∧ 0 ≤ cfCapRatePts m ∧ 0 ≤ cfCocPts m ∧
      0 ≤ cfDscrPts m ∧ 0 ≤ cfGrmPts m := by
  refine ⟨?_, ?_, ?_, ?_, ?_⟩ <;>
    first
      | (unfold cfCashFlowPts; split_ifs <;> norm_num)
      | (unfold cfCapRatePts; split_ifs <;> norm_num)
      | (unfold cfCocPts; split_ifs <;> norm_num)
      | (unfold cfDscrPts; split_ifs <;> norm_num)
      | (unfold cfGrmPts; split_ifs <;> norm_num)

/-- Every tier bonus of the flip scoring function is non-negative. -/
theorem flip_pts_nonneg (m : FlipMetrics) :
    0 ≤ flipProfitPts m ∧ 0 ≤ flipRoiPts m ∧ 0 ≤ flipPpmPts m ∧ 0 ≤ flipSpreadPts m := by
  refine ⟨?_, ?_, ?_, ?_⟩ <;>
    first
      | (unfold flipProfitPts; split_ifs <;> norm_num)
      | (unfold flipRoiPts; split_ifs <;> norm_num)
      | (unfold flipPpmPts; split_ifs <;> norm_num)
      | (unfold flipSpreadPts; dsimp only; split_ifs <;> norm_num)

/-- C4: for every listing with positive price and every configuration, the
score produced by each of the three analyzers lies in the closed interval
from 0 to 100, each scoring function being a capped sum of non-negative
tier bonuses with the BRRR capital-recovery component clamped to the
interval from 0 to 25. -/
theorem analyzer_scores_in_range (bc : BRRRConfig) (cf : CashFlowConfig) (fc : FlipConfig)
    (l : Listing) (re ae : Option ℚ) (hp : 0 < l.price) :
    (0 ≤ (brrrAnalyze bc cf l).score ∧ (brrrAnalyze bc cf l).score ≤ 100) ∧
    (0 ≤ (cashflowAnalyze cf l re).score ∧ (cashflowAnalyze cf l re).score ≤ 100) ∧
    (0 ≤ (flipAnalyze fc l ae).score ∧ (flipAnalyze fc l ae).score ≤ 100) ∧
    (∀ m : BRRRMetrics, 0 ≤ brrrRecoveryPts m ∧ brrrRecoveryPts m ≤ 25) := by
  refine ⟨?_, ?_, ?_, fun m => (brrr_pts_nonneg m).2.1⟩
  · have h := brrr_pts_nonneg (brrrMetrics bc cf l)
    exact score_cap_bounds (by
      have := h.1; have := h.2.1.1; have := h.2.2.1; have := h.2.2.2; linarith)
  · have h := cashflow_pts_nonneg (cashflowMetrics cf l re)
    exact score_cap_bounds (by
      have := h.1; have := h.2.1; have := h.2.2.1; have := h.2.2.2.1; have := h.2.2.2.2
      linarith)
  · have h := flip_pts_nonneg (flipMetrics fc l ae)
    exact score_cap_bounds (by
      have := h.1; have := h.2.1; have := h.2.2.1; have := h.2.2.2; linarith)

/-- Witness for C4 at the test-fixture listing with the default
configurations. -/
theorem analyzer_scores_in_range_witness :
    (0 ≤ (brrrAnalyze {} {} testListing).score ∧ (brrrAnalyze {} {} testListing).score ≤ 100) ∧
    (0 ≤ (cashflowAnalyze {} testListing none).score ∧
      (cashflowAnalyze {} testListing none).score ≤ 100) ∧
    (0 ≤ (flipAnalyze {} testListing none).score ∧ (flipAnalyze {} testListing none).score ≤ 100) ∧
    (∀ m : BRRRMetrics, 0 ≤ brrrRecoveryPts m ∧ brrrRecoveryPts m ≤ 25) :=
  analyzer_scores_in_range {} {} {} testListing none none (by norm_num [testListing])

/-! Claims C1 and C2: the BRRR dispatch bug.  BRRRAnalyzer.analyze takes
only the listing (src/listingiq/analysis/brrr.py line 21), but both the
engine (engine.py lines 41-44) and the offer calculator (offer.py lines
162-164 and 173-176) call it with the keywords rent_estimate and
arv_estimate, so every such call raises TypeError. -/

/-- Bind on a successful Except value applies the continuation. -/
theorem bind_ok {α β : Type} (a : α) (f : α → Except PyErr β) :
    (Except.ok a >>= f) = f a := rfl

/-- Bind on a failed Except value propagates the error. -/
theorem bind_error {α β : Type} (e : PyErr) (f : α → Except PyErr β) :
    ((Except.error e : Except PyErr α) >>= f) = .error e := rfl

/-- The keyword-argument binding of the BRRR analyze call fails: the
keywords rent_estimate and arv_estimate name no parameter of
BRRRAnalyzer.analyze. -/
theorem brrrAnalyzeCall_eq (cfg : AnalysisConfig) (l : Listing) (re ae : Option ℚ) :
    brrrAnalyzeCall cfg l re ae = .error .typeError := by
  have h : bindKwargs brrrAnalyzeParams ["rent_estimate", "arv_estimate"]
      = (.error .typeError : Except PyErr Unit) := rfl
  unfold brrrAnalyzeCall
  rw [h]
  rfl

/-- The BRRR offer binary search either exits without having analyzed
anything, returning its running best price, or raises the TypeError of
the first analyze call it makes. -/
theorem brrrSearchLoop_cases (cfg : AnalysisConfig) (l : Listing) (re ae : Option ℚ)
    (metric : String) (target : ℚ) (n : ℕ) (low high best : ℚ) :
    brrrSearchLoop cfg l re ae metric target n low high best = .ok best ∨
    brrrSearchLoop cfg l re ae metric target n low high best = .error .typeError := by
  cases n with
  | zero => left; rfl
  | succ k =>
    unfold brrrSearchLoop
    split
    · left; rfl
    · right
      dsimp only
      rw [brrrAnalyzeCall_eq, bind_error]

/-- The whole of _calc_brrr_offer raises TypeError: even when the search
loop exits before its first analyze call, the final metrics recomputation
calls BRRRAnalyzer.analyze with the unaccepted keywords. -/
theorem calcBrrrOffer_raises (cfg : AnalysisConfig) (l : Listing) (tm : Option String)
    (tv re ae : Option ℚ) :
    calcBrrrOffer cfg l tm tv re ae = .error .typeError := by
  unfold calcBrrrOffer
  dsimp only
  rcases brrrSearchLoop_cases cfg l re ae (pyStrOr tm "cash_on_cash_return")
      (tv.getD cfg.offer.brrr_target_coc) cfg.offer.max_iterations 1000 (l.price * 1.5) 1000
    with h | h <;> rw [h]
  · rw [bind_ok]
    rw [brrrAnalyzeCall_eq, bind_error]
  · rw [bind_error]

/-- C1: refuted as stated and settled as a code bug.  For every listing,
configuration and keyword-argument combination, calculate_offer_price
with the recognized strategy name brrr raises TypeError (the brrr branch
passes rent_estimate and arv_estimate keywords that
BRRRAnalyzer.analyze does not accept), contradicting the specification
statement that an unrecognized strategy name is the only raising
condition; an unrecognized name still raises ValueError and the other two
recognized strategies return results. -/
theorem offer_brrr_always_raises (cfg : AnalysisConfig) (l : Listing) (tm : Option String)
    (tv re ae : Option ℚ) :
    calculateOfferPrice cfg l "brrr" tm tv re ae = .error .typeError ∧
    calculateOfferPrice cfg l "other" tm tv re ae = .error .valueError ∧
    calculateOfferPrice cfg l "cash_flow" tm tv re ae = .ok (calcCashflowOffer cfg l tm tv re) ∧
    calculateOfferPrice cfg l "flip" tm tv re ae = .ok (calcFlipOffer cfg l tm tv ae) := by
  refine ⟨?_, rfl, rfl, rfl⟩
  unfold calculateOfferPrice
  rw [show parseStrategy "brrr" = Except.ok DealStrategy.brrr from rfl, bind_ok]
  exact calcBrrrOffer_raises cfg l tm tv re ae

/-- C2: refuted as stated and settled as a code bug.  Whenever brrr is
among the configured strategies (as in the default configuration),
DealAnalyzer.analyze_listing raises TypeError out of the BRRR dispatch,
aborting the whole call instead of returning one analysis per strategy. -/
theorem engine_analyze_listing_brrr_raises (cfg : AnalysisConfig) (l : Listing)
    (re ae : Option ℚ) (h : cfg.strategies.contains "brrr" = true) :
    engineAnalyzeListing cfg l re ae = .error .typeError := by
  unfold engineAnalyzeListing engineStrategyOrder
  rw [if_pos h]
  show List.mapM _ ("brrr" :: _) = _
  rw [List.mapM_cons]
  show Except.bind (engineAnalyzeOne cfg l re ae "brrr") _ = _
  have hone : engineAnalyzeOne cfg l re ae "brrr" = .error .typeError :=
    brrrAnalyzeCall_eq cfg l re ae
  rw [hone]
  rfl

/-- Witness for C2 at the default configuration and the test-fixture
listing: the analyze_listing call of test_analyze_all_strategies raises
instead of returning three analyses. -/
theorem engine_analyze_listing_brrr_raises_witness :
    engineAnalyzeListing {} testListing none none = .error .typeError :=
  engine_analyze_listing_brrr_raises {} testListing none none (by decide)

/-! Claim C9: get_top_deals filters, sorts and truncates. -/

/-- C9: get_top_deals maps the analysis results through exactly the
pipeline filter by score at least min_score and meets_criteria, stable
descending sort by score, truncate to limit; the value so produced has
length at most limit, is pairwise non-increasing in score, contains only
records passing the filter, and the sorted list is a permutation of the
filtered one. -/
theorem get_top_deals_spec (cfg : AnalysisConfig) (ls : List Listing) (min_score : ℚ)
    (limit : ℕ) (re ae : Option ℚ) :
    engineGetTopDeals cfg ls min_score limit re ae =
      (engineAnalyzeListings cfg ls re ae).map (fun ds =>
        ((ds.filter (topDealsPred min_score)).mergeSort topDealsLe).take limit) ∧
    ∀ ds : List DealAnalysis,
      (((ds.filter (topDealsPred min_score)).mergeSort topDealsLe).take limit).length ≤ limit ∧
      (((ds.filter (topDealsPred min_score)).mergeSort topDealsLe).take limit).Pairwise
        (fun a b => b.score ≤ a.score) ∧
      (((ds.filter (topDealsPred min_score)).mergeSort topDealsLe).take limit).all
        (topDealsPred min_score) = true ∧
      ((ds.filter (topDealsPred min_score)).mergeSort topDealsLe).Perm
        (ds.filter (topDealsPred min_score)) := by
  refine ⟨rfl, fun ds => ⟨?_, ?_, ?_, List.mergeSort_perm _ _⟩⟩
  · rw [List.length_take]
    exact min_le_left _ _
  · have htrans : ∀ a b c : DealAnalysis, topDealsLe a b → topDealsLe b c → topDealsLe a c := by
      intro a b c hab hbc
      unfold topDealsLe at *
      exact decide_eq_true (le_trans (of_decide_eq_true hbc) (of_decide_eq_true hab))
    have htotal : ∀ a b : DealAnalysis, topDealsLe a b || topDealsLe b a := by
      intro a b
      unfold topDealsLe
      rcases le_total a.score b.score with h | h <;> simp [h]
    have hsorted := List.sorted_mergeSort htrans htotal (ds.filter (topDealsPred min_score))
    have hsorted2 : ((ds.filter (topDealsPred min_score)).mergeSort topDealsLe).Pairwise
        (fun a b => b.score ≤ a.score) := by
      refine hsorted.imp ?_
      intro a b h
      exact of_decide_eq_true h
    exact hsorted2.sublist (List.take_sublist _ _)
  · rw [List.all_eq_true]
    intro d hd
    have hmem : d ∈ (ds.filter (topDealsPred min_score)).mergeSort topDealsLe :=
      (List.take_sublist _ _).mem hd
    have : d ∈ ds.filter (topDealsPred min_score) := List.mem_mergeSort.mp hmem
    exact List.of_mem_filter this

/-! Claim C10: the cash-flow binary search stays inside its window and
silently returns the floor when the target is unattainable. -/

/-- The cash-flow search loop keeps its result inside any window that
contains its bounds and its running best price. -/
theorem cfSearchLoop_bounds (cfg : AnalysisConfig) (l : Listing) (re : Option ℚ)
    (metric : String) (target lo hi : ℚ) :
    ∀ (n : ℕ) (low high best : ℚ), lo ≤ low → low ≤ high → high ≤ hi →
      lo ≤ best → best ≤ hi →
      lo ≤ cfSearchLoop cfg l re metric target n low high best ∧
      cfSearchLoop cfg l re metric target n low high best ≤ hi := by
  intro n
  induction n with
  | zero =>
    intro low high best _ _ _ hb1 hb2
    exact ⟨hb1, hb2⟩
  | succ k ih =>
    intro low high best h1 h2 h3 hb1 hb2
    unfold cfSearchLoop
    split
    · exact ⟨hb1, hb2⟩
    · dsimp only
      have hm1 : low ≤ (low + high) / 2 := by linarith
      have hm2 : (low + high) / 2 ≤ high := by linarith
      split
      · exact ih ((low + high) / 2) high ((low + high) / 2)
          (le_trans h1 hm1) hm2 h3 (le_trans h1 hm1) (le_trans hm2 h3)
      · exact ih low ((low + high) / 2) best h1 hm1 (le_trans hm2 h3) hb1 hb2

/-- When no price in the window reaches the target, the running best price
is never updated: the loop returns the value it started from. -/
theorem cfSearchLoop_floor (cfg : AnalysisConfig) (l : Listing) (re : Option ℚ)
    (metric : String) (target lo hi : ℚ)
    (hfail : ∀ p, lo ≤ p → p ≤ hi →
      pyGe (cfMetricAt cfg l re metric p) (.fin target) = false) :
    ∀ (n : ℕ) (low high : ℚ), lo ≤ low → low ≤ high → high ≤ hi →
      cfSearchLoop cfg l re metric target n low high lo = lo := by
  intro n
  induction n with
  | zero => intro low high _ _ _; rfl
  | succ k ih =>
    intro low high h1 h2 h3
    unfold cfSearchLoop
    split
    · rfl
    · dsimp only
      have hm1 : low ≤ (low + high) / 2 := by linarith
      have hm2 : (low + high) / 2 ≤ high := by linarith
      have hmid := hfail ((low + high) / 2) (le_trans h1 hm1) (le_trans hm2 h3)
      rw [if_neg (by simp [hmid])]
      exact ih low ((low + high) / 2) h1 hm1 (le_trans hm2 h3)

/-- C10: for every listing priced at least 1000 and every target, the
cash_flow branch of the offer calculator always returns (it is total),
its reported max offer price is the rounding of the best price found by
the search, the best price lies in the window from 1000 to one and a half
times the list price, and when no price in that window attains the target
metric the search silently returns the floor 1000, whose metrics do not
meet the target. -/
theorem cashflow_offer_window (cfg : AnalysisConfig) (l : Listing) (tm : Option String)
    (tv re : Option ℚ) (hp : 1000 ≤ l.price) :
    (1000 ≤ cfBestPrice cfg l tm tv re ∧ cfBestPrice cfg l tm tv re ≤ l.price * 1.5) ∧
    (calcCashflowOffer cfg l tm tv re).max_offer_price =
      pyRoundQ 0 (cfBestPrice cfg l tm tv re) ∧
    ((∀ p, 1000 ≤ p → p ≤ l.price * 1.5 →
        pyGe (cfMetricAt cfg l re (cfOfferMetric tm) p)
          (.fin (cfOfferTarget cfg.offer tm tv)) = false) →
      cfBestPrice cfg l tm tv re = 1000 ∧
      pyGe (cfMetricAt cfg l re (cfOfferMetric tm) 1000)
        (.fin (cfOfferTarget cfg.offer tm tv)) = false) := by
  have hwin : (1000 : ℚ) ≤ l.price * 1.5 := by
    have : (1.5 : ℚ) = 3 / 2 := by norm_num
    nlinarith
  refine ⟨?_, rfl, ?_⟩
  · exact cfSearchLoop_bounds cfg l re (cfOfferMetric tm) (cfOfferTarget cfg.offer tm tv)
      1000 (l.price * 1.5) cfg.offer.max_iterations 1000 (l.price * 1.5) 1000
      le_rfl hwin le_rfl le_rfl hwin
  · intro hfail
    refine ⟨?_, hfail 1000 le_rfl hwin⟩
    exact cfSearchLoop_floor cfg l re (cfOfferMetric tm) (cfOfferTarget cfg.offer tm tv)
      1000 (l.price * 1.5) hfail cfg.offer.max_iterations 1000 (l.price * 1.5)
      le_rfl hwin le_rfl

/-- Witness for C10 at the default configuration and the test-fixture
listing. -/
theorem cashflow_offer_window_witness :
    (1000 ≤ cfBestPrice {} testListing none none none ∧
      cfBestPrice {} testListing none none none ≤ testListing.price * 1.5) ∧
    (calcCashflowOffer {} testListing none none none).max_offer_price =
      pyRoundQ 0 (cfBestPrice {} testListing none none none) ∧
    ((∀ p, 1000 ≤ p → p ≤ testListing.price * 1.5 →
        pyGe (cfMetricAt {} testListing none (cfOfferMetric none) p)
          (.fin (cfOfferTarget ({} : AnalysisConfig).offer none none)) = false) →
      cfBestPrice {} testListing none none none = 1000 ∧
      pyGe (cfMetricAt {} testListing none (cfOfferMetric none) 1000)
        (.fin (cfOfferTarget ({} : AnalysisConfig).offer none none)) = false) :=
  cashflow_offer_window {} testListing none none none (by norm_num [testListing])

/-! Claim C3: the round-trip property of the offer calculator. -/

/-- The running best price of the cash-flow search is either the initial
floor or a price whose recomputed metric reaches the target, and the loop
preserves that invariant. -/
theorem cfSearchLoop_best_inv (cfg : AnalysisConfig) (l : Listing) (re : Option ℚ)
    (metric : String) (target : ℚ) :
    ∀ (n : ℕ) (low high best : ℚ),
      (best = 1000 ∨ pyGe (cfMetricAt cfg l re metric best) (.fin target) = true) →
      (cfSearchLoop cfg l re metric target n low high best = 1000 ∨
        pyGe (cfMetricAt cfg l re metric
          (cfSearchLoop cfg l re metric target n low high best)) (.fin target) = true) := by
  intro n
  induction n with
  | zero => intro low high best hb; exact hb
  | succ k ih =>
    intro low high best hb
    unfold cfSearchLoop
    split
    · exact hb
    · dsimp only
      split
      · next hcond => exact ih ((low + high) / 2) high ((low + high) / 2) (Or.inr hcond)
      · exact ih low ((low + high) / 2) best hb

/-- At the unrounded max offer of the flip closed form, with an external
nonzero ARV estimate passed through and the unclamped solution
non-negative, the recomputed flip profit is exactly the target profit. -/
theorem flipEstimatedProfit_at_offer (cfg : AnalysisConfig) (l : Listing) (tv : Option ℚ)
    (a : ℚ) (ha : a ≠ 0) (hnn : 0 ≤ flipOfferUnclamped cfg l tv (some a)) :
    flipEstimatedProfit cfg.flip { l with price := flipOfferMax cfg l tv (some a) } (some a)
      = tv.getD cfg.offer.flip_target_profit := by
  have hmax : flipOfferMax cfg l tv (some a) = flipOfferUnclamped cfg l tv (some a) :=
    max_eq_left hnn
  have harv : flipOfferArv cfg l (some a) = a := by
    simp [flipOfferArv, pyTruthyOpt, ha]
  have hreh : flipRehabCost { l with price := flipOfferMax cfg l tv (some a) }
      = flipOfferRehabCost l := rfl
  unfold flipEstimatedProfit flipTotalCost flipSellingCosts flipHoldingCosts flipEstimatedArv
  rw [hreh, hmax]
  unfold flipOfferUnclamped
  rw [harv]
  dsimp only
  ring

/-- C3: corrected.  For the cash_flow binary search, the returned
metrics_at_offer reproduce the target metric at or above the target value
whenever the search ever found a satisfying price (equivalently, whenever
the best price is not the untested initial floor 1000, and also when the
floor itself satisfies the target); for the flip closed form, when an
external nonzero ARV estimate is supplied and the unclamped solution is
non-negative, the recomputed estimated_profit equals the target value
exactly (up to the two-decimal metric rounding).  As originally stated
the claim fails: without an external ARV the flip analyzer rescales the
ARV from the substituted offer price, and an unattainable target makes
the cash-flow metrics at the returned floor miss the target; the brrr
branch raises TypeError outright. -/
theorem offer_round_trip_amended :
    (∀ (cfg : AnalysisConfig) (l : Listing) (tm : Option String) (tv re : Option ℚ),
      cfBestPrice cfg l tm tv re = 1000 ∨
      pyGe (dictGet (calcCashflowOffer cfg l tm tv re).metrics_at_offer
          (cfOfferMetric tm) (.fin 0))
        (.fin (cfOfferTarget cfg.offer tm tv)) = true) ∧
    (∀ (cfg : AnalysisConfig) (l : Listing) (tm : Option String) (tv : Option ℚ) (a : ℚ),
      a ≠ 0 → 0 ≤ flipOfferUnclamped cfg l tv (some a) →
      dictGet (calcFlipOffer cfg l tm tv (some a)).metrics_at_offer
          "estimated_profit" (.fin 0)
        = .fin (pyRoundQ 2 (tv.getD cfg.offer.flip_target_profit))) := by
  constructor
  · intro cfg l tm tv re
    exact cfSearchLoop_best_inv cfg l re (cfOfferMetric tm) (cfOfferTarget cfg.offer tm tv)
      cfg.offer.max_iterations 1000 (l.price * 1.5) 1000 (Or.inl rfl)
  · intro cfg l tm tv a ha hnn
    have h1 : dictGet (calcFlipOffer cfg l tm tv (some a)).metrics_at_offer
        "estimated_profit" (.fin 0)
        = .fin (pyRoundQ 2 (flipEstimatedProfit cfg.flip
            { l with price := flipOfferMax cfg l tv (some a) } (some a))) := rfl
    rw [h1, flipEstimatedProfit_at_offer cfg l tv a ha hnn]

/-- Witness for the amended C3 at the test-fixture listing: the cash-flow
disjunction at the default configuration, and the flip exactness with the
ARV estimate 350000 used by test_flip_with_arv_override. -/
theorem offer_round_trip_amended_witness :
    (cfBestPrice {} testListing none none none = 1000 ∨
      pyGe (dictGet (calcCashflowOffer {} testListing none none none).metrics_at_offer
          (cfOfferMetric none) (.fin 0))
        (.fin (cfOfferTarget ({} : AnalysisConfig).offer none none)) = true) ∧
    dictGet (calcFlipOffer {} testListing none none (some 350000)).metrics_at_offer
        "estimated_profit" (.fin 0)
      = .fin (pyRoundQ 2 ((none : Option ℚ).getD ({} : AnalysisConfig).offer.flip_target_profit)) :=
  ⟨offer_round_trip_amended.1 {} testListing none none none,
   offer_round_trip_amended.2 {} testListing none none 350000 (by norm_num)
     (by with_unfolding_all decide)⟩

/-- The listing of the counterexample to C3 as stated: list price 200000,
unknown square footage. -/
def flipCexListing : Listing := { price := 200000 }

set_option maxRecDepth 40000 in
/-- Counterexample to C3 as stated: for the flip closed form with no
external ARV estimate and the default target profit 30000, the
estimated_profit recomputed at the returned max offer price is 45678.11,
not the target value, because the analyzer rescales the ARV from the
substituted price. -/
theorem flip_round_trip_cex :
    (calcFlipOffer {} flipCexListing none none none).target_value = 30000 ∧
    dictGet (calcFlipOffer {} flipCexListing none none none).metrics_at_offer
        "estimated_profit" (.fin 0) = .fin (4567811 / 100) ∧
    (4567811 / 100 : ℚ) ≠ 30000 := by
  refine ⟨?_, ?_, by norm_num⟩ <;> with_unfolding_all decide

/-! Claim C5: the flip closed form. -/

/-- Spec-side formula for claim C5, following the words of the
specification, to be compared with the source embedding: the estimated
ARV is the external arv_estimate if given, else price over
max_purchase_pct_of_arv; rehab cost is sqft times 35 if sqft is positive,
else 30000; holding costs are monthly_holding_cost times project_months;
selling costs are the ARV times selling_cost_pct; the offer is the ARV
minus rehab, holding and selling costs and the target profit, floored at
zero. -/
def specFlipMaxOffer (cfg : AnalysisConfig) (l : Listing) (tv ae : Option ℚ) : ℚ :=
  let arv := ae.getD (l.price / cfg.flip.max_purchase_pct_of_arv)
  let rehab := if 0 < l.sqft then (l.sqft : ℚ) * 35 else 30000
  let holding := cfg.flip.monthly_holding_cost * cfg.flip.project_months
  let selling := arv * cfg.flip.selling_cost_pct
  max (arv - rehab - holding - selling - tv.getD cfg.offer.flip_target_profit) 0

/-- C5: the flip branch of the offer calculator is the closed form of the
specification, rounded to whole units; the reported target value is the
supplied one or the configured default, the default metric name is
estimated_profit, and the configured default target profit is 30000.
The listing is assumed to have non-negative square footage (as the data
model requires) and a supplied ARV estimate is assumed nonzero (the
source tests truthiness, under which a zero estimate means absent). -/
theorem flip_offer_closed_form (cfg : AnalysisConfig) (l : Listing) (tm : Option String)
    (tv ae : Option ℚ) (hs : 0 ≤ l.sqft) (ha : ae ≠ some 0) :
    (calcFlipOffer cfg l tm tv ae).max_offer_price = pyRoundQ 0 (specFlipMaxOffer cfg l tv ae) ∧
    (calcFlipOffer cfg l tm tv ae).target_value = tv.getD cfg.offer.flip_target_profit ∧
    (tm = none → (calcFlipOffer cfg l tm tv ae).target_metric = "estimated_profit") ∧
    ({} : OfferConfig).flip_target_profit = 30000 := by
  refine ⟨?_, rfl, ?_, by norm_num⟩
  · have harv : flipOfferArv cfg l ae =
        ae.getD (l.price / cfg.flip.max_purchase_pct_of_arv) := by
      cases ae with
      | none => rfl
      | some a =>
        have h : a ≠ 0 := by
          intro h
          exact ha (by rw [h])
        simp [flipOfferArv, pyTruthyOpt, h]
    have hreh : flipOfferRehabCost l = (if 0 < l.sqft then (l.sqft : ℚ) * 35 else 30000) := by
      unfold flipOfferRehabCost
      rcases lt_or_eq_of_le hs with h | h
      · rw [if_pos (by omega : l.sqft ≠ 0), if_pos h]
        norm_num
      · rw [if_neg (by omega : ¬l.sqft ≠ 0), if_neg (by omega : ¬0 < l.sqft)]
        norm_num
    show pyRoundQ 0 (flipOfferMax cfg l tv ae) = _
    unfold specFlipMaxOffer flipOfferMax flipOfferUnclamped
    rw [harv, hreh]
    try dsimp only
    try rfl
  · intro h
    subst h
    rfl

/-- Witness for C5 at the test-fixture listing with no ARV estimate. -/
theorem flip_offer_closed_form_witness :
    (calcFlipOffer {} testListing none none none).max_offer_price =
      pyRoundQ 0 (specFlipMaxOffer {} testListing none none) ∧
    (calcFlipOffer {} testListing none none none).target_value =
      (none : Option ℚ).getD ({} : AnalysisConfig).offer.flip_target_profit ∧
    ((none : Option String) = none →
      (calcFlipOffer {} testListing none none none).target_metric = "estimated_profit") ∧
    ({} : OfferConfig).flip_target_profit = 30000 :=
  flip_offer_closed_form {} testListing none none none (by decide) (by decide)

/-! Claim C6: infinity conditions of the cash-flow ratio metrics. -/

/-- The mortgage payment is non-negative whenever the loan term is at
least one year. -/
theorem monthlyPayment_nonneg (p r : ℚ) (y : ℤ) (hy : 1 ≤ y) : 0 ≤ monthlyPayment p r y := by
  unfold monthlyPayment
  split
  · exact le_rfl
  · next h =>
    push_neg at h
    obtain ⟨hp, hr⟩ := h
    dsimp only
    have hpow : (1 : ℚ) < (1 + r / 12) ^ (y * 12) :=
      one_lt_zpow₀ (by linarith) (by omega)
    apply div_nonneg
    · apply mul_nonneg (le_of_lt hp)
      apply mul_nonneg (by linarith)
      linarith
    · linarith

/-- C6: corrected.  For the cash-flow analyzer on a positively priced
listing with a non-negative rent estimate (and a configuration with a
non-negative rent percentage and a loan term of at least one year): the
dscr metric is positive infinity exactly when the annual debt service is
zero, the grm metric is positive infinity exactly when the annual rent is
zero, and with a non-zero denominator each ratio is finite (the dscr
being the NOI over the debt service), the raw GRM moreover positive.  The
original claim also asserted the dscr positive, which fails: it takes the
sign of the NOI. -/
theorem cashflow_ratio_infinities (cfg : CashFlowConfig) (l : Listing) (re : Option ℚ)
    (hp : 0 < l.price) (hre : ∀ r, re = some r → 0 ≤ r)
    (hpct : 0 ≤ cfg.rent_estimate_pct) (hy : 1 ≤ cfg.loan_term_years) :
    ((cashflowMetrics cfg l re).dscr = .inf ↔ cfAnnualDebtService cfg l = 0) ∧
    ((cashflowMetrics cfg l re).grm = .inf ↔ cfAnnualRent cfg l re = 0) ∧
    (cfAnnualDebtService cfg l ≠ 0 →
      cfDscr cfg l re = .fin (cfNoi cfg l re / cfAnnualDebtService cfg l)) ∧
    (cfAnnualRent cfg l re ≠ 0 → pyLt (.fin 0) (cfGrm cfg l re) = true) := by
  have hads : 0 ≤ cfAnnualDebtService cfg l := by
    have h : 0 ≤ cfMonthlyMortgage cfg l :=
      monthlyPayment_nonneg (cfLoanAmount cfg l) cfg.interest_rate cfg.loan_term_years hy
    unfold cfAnnualDebtService
    linarith
  have hrent : 0 ≤ cfMonthlyRent cfg l re := by
    cases re with
    | some r => exact hre r rfl
    | none => exact mul_nonneg (le_of_lt hp) hpct
  have hann : 0 ≤ cfAnnualRent cfg l re := by
    unfold cfAnnualRent
    linarith
  refine ⟨?_, ?_, ?_, ?_⟩
  · show pyRoundF 2 (cfDscr cfg l re) = .inf ↔ _
    rw [pyRoundF_eq_inf_iff]
    unfold cfDscr
    constructor
    · intro hinf
      by_contra hne
      rw [if_pos (lt_of_le_of_ne hads (Ne.symm hne))] at hinf
      exact PyFloat.noConfusion hinf
    · intro h0
      rw [if_neg (by rw [h0]; exact lt_irrefl 0)]
  · show pyRoundF 2 (cfGrm cfg l re) = .inf ↔ _
    rw [pyRoundF_eq_inf_iff]
    unfold cfGrm
    constructor
    · intro hinf
      by_contra hne
      rw [if_pos (lt_of_le_of_ne hann (Ne.symm hne))] at hinf
      exact PyFloat.noConfusion hinf
    · intro h0
      rw [if_neg (by rw [h0]; exact lt_irrefl 0)]
  · intro hne
    unfold cfDscr
    rw [if_pos (lt_of_le_of_ne hads (Ne.symm hne))]
  · intro hne
    have hpos : 0 < cfAnnualRent cfg l re := lt_of_le_of_ne hann (Ne.symm hne)
    unfold cfGrm
    rw [if_pos hpos]
    have hq : 0 < l.price / cfAnnualRent cfg l re := div_pos hp hpos
    simp [pyLt, pyLe, not_le, hq]

/-- The listing of the counterexample to C6: price 100000, everything
else unknown. -/
def dscrCexListing : Listing := { price := 100000 }

set_option maxRecDepth 40000 in
/-- Counterexample to C6 as stated: with a zero rent estimate the NOI is
negative, so the annual debt service is positive (the denominator is not
zero) while the dscr metric is negative rather than positive finite. -/
theorem cashflow_dscr_negative_cex :
    0 < cfAnnualDebtService {} dscrCexListing ∧
    pyLt ((cashflowMetrics {} dscrCexListing (some 0)).dscr) (.fin 0) = true := by
  constructor <;> with_unfolding_all decide

set_option maxRecDepth 40000 in
/-- Witness for the amended C6 at the default configuration, price 100000
and rent estimate 1200. -/
theorem cashflow_ratio_infinities_witness :
    (((cashflowMetrics {} dscrCexListing (some 1200)).dscr = .inf ↔
        cfAnnualDebtService {} dscrCexListing = 0) ∧
      ((cashflowMetrics {} dscrCexListing (some 1200)).grm = .inf ↔
        cfAnnualRent {} dscrCexListing (some 1200) = 0) ∧
      (cfAnnualDebtService {} dscrCexListing ≠ 0 →
        cfDscr {} dscrCexListing (some 1200) =
          .fin (cfNoi {} dscrCexListing (some 1200) / cfAnnualDebtService {} dscrCexListing)) ∧
      (cfAnnualRent {} dscrCexListing (some 1200) ≠ 0 →
        pyLt (.fin 0) (cfGrm {} dscrCexListing (some 1200)) = true)) :=
  cashflow_ratio_infinities {} dscrCexListing (some 1200)
    (by norm_num [dscrCexListing])
    (fun r hr => by cases hr; norm_num)
    (by norm_num)
    (by norm_num)

/-! Claim C7: BRRR cash left in the deal and the infinite return. -/

/-- C7: corrected.  The cash_left_in_deal metric is always non-negative;
whenever the total investment is at most the refinance amount (so the
cash left is zero) the cash_on_cash_return metric is positive infinity
provided the annual cash flow is positive (the original claim omitted
that proviso: with non-positive cash flow the return is 0, not infinity),
meets_criteria is true whenever the monthly cash flow metric is positive
(the configured minimum return being a finite rational by construction),
and infinity satisfies every finite threshold comparison. -/
theorem brrr_zero_cash_left (bc : BRRRConfig) (cf : CashFlowConfig) (l : Listing) :
    0 ≤ (brrrMetrics bc cf l).cash_left_in_deal ∧
    (brrrTotalInvestment bc l ≤ brrrRefinanceAmount bc l →
      ((0 < brrrAnnualCashFlow bc cf l → (brrrMetrics bc cf l).cash_on_cash_return = .inf) ∧
       (0 < (brrrMetrics bc cf l).monthly_cash_flow →
         (brrrAnalyze bc cf l).meets_criteria = true))) ∧
    (∀ t : ℚ, pyGe .inf (.fin t) = true) := by
  refine ⟨?_, ?_, fun t => rfl⟩
  · show 0 ≤ pyRoundQ 2 (brrrCashLeftInDeal bc l)
    exact pyRoundQ_nonneg 2 (le_max_right _ 0)
  · intro hle
    have hzero : brrrCashLeftInDeal bc l = 0 := by
      unfold brrrCashLeftInDeal
      exact max_eq_right (by linarith)
    have hcoc : 0 < brrrAnnualCashFlow bc cf l → brrrCashOnCash bc cf l = .inf := by
      intro hpos
      unfold brrrCashOnCash
      rw [hzero]
      rw [if_neg (lt_irrefl 0), if_pos hpos]
    constructor
    · intro hpos
      show pyRoundF 2 (brrrCashOnCash bc cf l) = .inf
      rw [hcoc hpos]
      rfl
    · intro hmcf
      have hraw : 0 < brrrMonthlyCashFlow bc cf l := pyRoundQ_pos hmcf
      have hann : 0 < brrrAnnualCashFlow bc cf l := by
        unfold brrrAnnualCashFlow
        linarith
      show brrrMeets bc (brrrMetrics bc cf l) = true
      unfold brrrMeets
      have h1 : (brrrMetrics bc cf l).cash_on_cash_return = .inf := by
        show pyRoundF 2 (brrrCashOnCash bc cf l) = .inf
        rw [hcoc hann]
        rfl
      rw [h1, pyGe_inf_fin]
      simp [hmcf]

/-- The listing of the counterexample to C7: list price 500000, unknown
square footage and taxes. -/
def brrrCexListing : Listing := { price := 500000 }

set_option maxRecDepth 40000 in
/-- Counterexample to C7 as stated: at price 500000 with unknown sqft the
refinance amount covers the total investment, yet the cash flow is
negative, so the cash-on-cash return metric is 0 rather than positive
infinity. -/
theorem brrr_coc_not_infinite_cex :
    brrrTotalInvestment {} brrrCexListing ≤ brrrRefinanceAmount {} brrrCexListing ∧
    (brrrMetrics {} {} brrrCexListing).cash_on_cash_return = .fin 0 := by
  constructor <;> with_unfolding_all decide

/-- A cash-flow configuration with a higher rent percentage, under which
the counterexample listing carries positive cash flow. -/
def brrrWitnessCf : CashFlowConfig := { rent_estimate_pct := 0.012 }

set_option maxRecDepth 40000 in
/-- Witness for the amended C7: at price 500000 with the higher rent
percentage, the deal refinances all capital out and carries positive cash
flow, so the return is infinite and the deal qualifies. -/
theorem brrr_zero_cash_left_witness :
    0 ≤ (brrrMetrics {} brrrWitnessCf brrrCexListing).cash_left_in_deal ∧
    ((brrrMetrics {} brrrWitnessCf brrrCexListing).cash_on_cash_return = .inf ∧
      (brrrAnalyze {} brrrWitnessCf brrrCexListing).meets_criteria = true) ∧
    pyGe .inf (.fin 8) = true :=
  have h := brrr_zero_cash_left {} brrrWitnessCf brrrCexListing
  have hle : brrrTotalInvestment {} brrrCexListing ≤ brrrRefinanceAmount {} brrrCexListing := by
    with_unfolding_all decide
  ⟨h.1,
   ⟨(h.2.1 hle).1 (by with_unfolding_all decide),
    (h.2.1 hle).2 (by with_unfolding_all decide)⟩,
   h.2.2 8⟩

end ListingIQ
